import Mathlib

/-!
Verification development for the sampleapp-go repository (src/main.go).

The program is a small HTTP service with two listeners (an application
server and a metrics/health server), a process-wide atomic readiness flag
(`healthy`), and a coordinated signal-driven graceful-shutdown sequence
shared by both listeners (`startServer`).

The sequential request handlers are embedded as pure Lean functions of
their inputs (the random draw of `rand.Intn(101)` is passed explicitly).
The concurrent lifecycle of `main`, the two `startServer` goroutines, the
nested `ListenAndServe` goroutines and the signal-watcher goroutine is
embedded as a labelled small-step transition system over an explicit
system state, one constructor per atomic program action, with executions
represented as label traces (`Run`).
-/

/-! ## HTTP responses and the request handlers (src/main.go) -/

/-- An HTTP response: status code written by `w.WriteHeader` and the body
written by `fmt.Fprint`/`fmt.Fprintf`. -/
structure HttpResponse where
  status : Nat
  body : String
deriving DecidableEq, Repr

/-- `rand.Intn(101)` in `Handler`: the draw is a uniformly distributed
integer in `[0, 100]`, i.e. strictly below this bound. -/
def randIntnBound : Nat := 101

/-- `time.Sleep(5 * time.Millisecond)` at the top of the handler body
("don't be too fast"). -/
def handlerDelayMillis : Nat := 5

/-- The application request handler `Handler(successRate)` from
src/main.go, as a function of the configured success rate and of the
value drawn by `rand.Intn(101)`:
`if rand.Intn(101) > successRate { 500 "Fail\n" } else { 200 "Hello World!\n" }`.
`successRate` is a Go `int` coming from `strconv.Atoi`, so it is modelled
as an unrestricted integer. -/
def Handler (successRate : Int) (draw : Nat) : HttpResponse :=
  if (draw : Int) > successRate then
    { status := 500, body := "Fail\n" }
  else
    { status := 200, body := "Hello World!\n" }

/-- The `/liveness` handler of the metrics server: always `200 "OK"`. -/
def livenessHandler : HttpResponse :=
  { status := 200, body := "OK" }

/-- The `/readiness` handler of the metrics server, as a function of the
current value of the atomic flag `healthy`:
`if atomic.LoadInt32(&healthy) == 1 { 200 "OK" } else { 502 "Unhealthy" }`. -/
def readinessHandler (healthy : Int) : HttpResponse :=
  if healthy = 1 then { status := 200, body := "OK" }
  else { status := 502, body := "Unhealthy" }

/-! ## Configuration (flags registered in `init`, env var read in `main`) -/

/-- The names of the command-line flags registered in `init()`. -/
def flagNames : List String := ["metrics-port", "server-port", "stop-timeout"]

/-- Default of the `stop-timeout` flag: `10*time.Second`. -/
def defaultStopTimeoutSeconds : Nat := 10

/-- The hard-coded settle delay in `startServer`:
`time.Sleep(5 * time.Second) // give k8s some time to sync services`. -/
def startServerSettleDelaySeconds : Nat := 5

/-- The configuration a process run starts with: the flag values and the
result of `strconv.Atoi(os.Getenv("SUCCESS_RATE"))` (`none` when the
variable is missing or unparseable, in which case `err != nil`). -/
structure Config where
  metricsPort : Nat := 8000
  serverPort : Nat := 8080
  stopTimeoutSeconds : Nat := defaultStopTimeoutSeconds
  successRateEnv : Option Int
deriving DecidableEq, Repr

/-! ## The process state -/

/-- Identity of the two listeners launched by `main`: the application
server (`createHttpServer`) and the metrics server (`createMetricsServer`). -/
inductive SrvId
  | app
  | metrics
deriving DecidableEq, Repr

/-- Per-listener state of one `startServer` goroutine together with its
nested `ListenAndServe` goroutine.

`pc` is the program counter of the `startServer` body:
0 = goroutine not yet spawned by `main`;
1 = at entry, about to spawn the `ListenAndServe` goroutine;
2 = blocked on `<-stopCh`;
3 = about to run `srv.SetKeepAlivesEnabled(false)`;
4 = about to run `atomic.StoreInt32(&healthy, 0)`;
5 = about to run `time.Sleep(5 * time.Second)`;
6 = about to call `srv.Shutdown(ctx)`;
7 = about to run the deferred `wg.Done()`;
8 = returned.

`accept` is the state of the nested `ListenAndServe` goroutine:
0 = not accepting (not yet spawned, or spawned but not yet bound);
1 = bound and accepting connections;
2 = returned `http.ErrServerClosed` after `Shutdown` and exited normally;
3 = returned some other error and hit `log.Fatalf("boom: ...")`. -/
structure SrvState where
  pc : Nat
  accept : Nat
  keepAlives : Bool
  shutdownCalled : Bool
deriving DecidableEq, Repr

/-- The whole-process state.

`mainPc` is the program counter of `main` after `flag.Parse()`:
0 = about to run `strconv.Atoi(os.Getenv("SUCCESS_RATE"))`;
1 = about to run `wg.Add(2)`;
2 = about to spawn `startServer(createHttpServer(successRate), ...)`;
3 = about to spawn `startServer(createMetricsServer(), ...)`;
4 = about to run `signal.Notify` and spawn the signal-watcher goroutine;
5 = about to run `atomic.StoreInt32(&healthy, 1)`;
6 = blocked on `wg.Wait()`;
7 = past `wg.Wait()`, printing "All stopped." and returning.

`healthy` is the value of the global `int32` flag, `wg` the counter of
the `sync.WaitGroup`, `stopClosed` whether `close(stopCh)` has happened,
`sigArrived` whether a SIGTERM/SIGINT has been delivered to channel `c`,
`fatal` whether some goroutine executed `log.Fatalf` (which exits the
whole process with a non-zero status; no further step is possible). -/
structure Sys where
  mainPc : Nat
  healthy : Int
  stopClosed : Bool
  sigArrived : Bool
  watcherSpawned : Bool
  watcherDone : Bool
  wg : Nat
  app : SrvState
  metrics : SrvState
  fatal : Bool
deriving DecidableEq, Repr

/-- Select a listener's state. -/
def Sys.srv (s : Sys) : SrvId → SrvState
  | .app => s.app
  | .metrics => s.metrics

/-- Replace a listener's state. -/
def Sys.setSrv (s : Sys) (i : SrvId) (v : SrvState) : Sys :=
  match i with
  | .app => { s with app := v }
  | .metrics => { s with metrics := v }

/-- State of each listener before `main` spawns its goroutine; the Go
zero values / defaults: keep-alives are enabled until
`SetKeepAlivesEnabled(false)`. -/
def initSrv : SrvState :=
  { pc := 0, accept := 0, keepAlives := true, shutdownCalled := false }

/-- The initial process state: `healthy int32 = 0`, `stopCh` open, the
`sync.WaitGroup` zero, no goroutine spawned, right after `flag.Parse()`. -/
def initSys : Sys :=
  { mainPc := 0, healthy := 0, stopClosed := false, sigArrived := false,
    watcherSpawned := false, watcherDone := false, wg := 0,
    app := initSrv, metrics := initSrv, fatal := false }

/-- The process exit status: `log.Fatalf` exits non-zero, a normal return
from `main` exits 0. -/
def exitCode (s : Sys) : Nat := if s.fatal then 1 else 0

/-! ## The labelled atomic steps -/

/-- Labels naming each atomic action of the program, used to talk about
execution traces. -/
inductive Label
  | mainParseOk
  | mainParseFail
  | mainWgAdd
  | mainSpawn (i : SrvId)
  | mainNotify
  | mainSetHealthy
  | mainWgWait
  | sigArrive
  | watcherClose
  | srvSpawnAccept (i : SrvId)
  | srvObserveStop (i : SrvId)
  | srvKeepAlivesOff (i : SrvId)
  | srvSetUnready (i : SrvId)
  | srvSleep (i : SrvId) (seconds : Nat)
  | srvShutdown (i : SrvId) (ok : Bool) (timeoutSeconds : Nat)
  | srvWgDone (i : SrvId)
  | acceptServe (i : SrvId)
  | acceptClosed (i : SrvId)
  | acceptCrash (i : SrvId)
deriving DecidableEq, Repr

/-- The effect of one atomic action of the program on the process state,
for a fixed configuration `cfg`: `none` when the action is not enabled
(its goroutine is blocked, its guard fails, or the whole process already
exited via `log.Fatalf`). Each branch transliterates one statement of
src/main.go; the only nondeterminism of the program (scheduling, signal
arrival, bind success, shutdown completing within its timeout) is in the
choice of the label. -/
def stepFn (cfg : Config) (s : Sys) : Label → Option Sys
  | .mainParseOk =>
      if s.fatal = false ∧ s.mainPc = 0 ∧ (cfg.successRateEnv).isSome then
        some { s with mainPc := 1 }
      else none
  | .mainParseFail =>
      if s.fatal = false ∧ s.mainPc = 0 ∧ cfg.successRateEnv = none then
        some { s with fatal := true }
      else none
  | .mainWgAdd =>
      if s.fatal = false ∧ s.mainPc = 1 then
        some { s with wg := 2, mainPc := 2 }
      else none
  | .mainSpawn .app =>
      if s.fatal = false ∧ s.mainPc = 2 then
        some { s with app := { s.app with pc := 1 }, mainPc := 3 }
      else none
  | .mainSpawn .metrics =>
      if s.fatal = false ∧ s.mainPc = 3 then
        some { s with metrics := { s.metrics with pc := 1 }, mainPc := 4 }
      else none
  | .mainNotify =>
      if s.fatal = false ∧ s.mainPc = 4 then
        some { s with watcherSpawned := true, mainPc := 5 }
      else none
  | .mainSetHealthy =>
      if s.fatal = false ∧ s.mainPc = 5 then
        some { s with healthy := 1, mainPc := 6 }
      else none
  | .mainWgWait =>
      if s.fatal = false ∧ s.mainPc = 6 ∧ s.wg = 0 then
        some { s with mainPc := 7 }
      else none
  | .sigArrive =>
      if s.fatal = false ∧ s.watcherSpawned = true ∧ s.sigArrived = false then
        some { s with sigArrived := true }
      else none
  | .watcherClose =>
      if s.fatal = false ∧ s.watcherSpawned = true ∧ s.sigArrived = true ∧
          s.watcherDone = false then
        some { s with stopClosed := true, watcherDone := true }
      else none
  | .srvSpawnAccept i =>
      if s.fatal = false ∧ (s.srv i).pc = 1 then
        some (s.setSrv i { s.srv i with pc := 2 })
      else none
  | .srvObserveStop i =>
      if s.fatal = false ∧ (s.srv i).pc = 2 ∧ s.stopClosed = true then
        some (s.setSrv i { s.srv i with pc := 3 })
      else none
  | .srvKeepAlivesOff i =>
      if s.fatal = false ∧ (s.srv i).pc = 3 then
        some (s.setSrv i { s.srv i with pc := 4, keepAlives := false })
      else none
  | .srvSetUnready i =>
      if s.fatal = false ∧ (s.srv i).pc = 4 then
        some { s.setSrv i { s.srv i with pc := 5 } with healthy := 0 }
      else none
  | .srvSleep i d =>
      if s.fatal = false ∧ (s.srv i).pc = 5 ∧ d = startServerSettleDelaySeconds then
        some (s.setSrv i { s.srv i with pc := 6 })
      else none
  | .srvShutdown i _ok t =>
      if s.fatal = false ∧ (s.srv i).pc = 6 ∧ t = cfg.stopTimeoutSeconds then
        some (s.setSrv i { s.srv i with pc := 7, shutdownCalled := true })
      else none
  | .srvWgDone i =>
      if s.fatal = false ∧ (s.srv i).pc = 7 then
        some { s.setSrv i { s.srv i with pc := 8 } with wg := s.wg - 1 }
      else none
  | .acceptServe i =>
      if s.fatal = false ∧ (s.srv i).pc ≥ 2 ∧ (s.srv i).accept = 0 ∧
          (s.srv i).shutdownCalled = false then
        some (s.setSrv i { s.srv i with accept := 1 })
      else none
  | .acceptClosed i =>
      if s.fatal = false ∧ (s.srv i).accept = 1 ∧ (s.srv i).shutdownCalled = true then
        some (s.setSrv i { s.srv i with accept := 2 })
      else none
  | .acceptCrash i =>
      if s.fatal = false ∧ (s.srv i).pc ≥ 2 ∧ (s.srv i).accept ≤ 1 ∧
          (s.srv i).shutdownCalled = false then
        some { s.setSrv i { s.srv i with accept := 3 } with fatal := true }
      else none

/-- `Step cfg s l s'`: the atomic action `l` is enabled in `s` and takes
the process to `s'`. -/
def Step (cfg : Config) (s : Sys) (l : Label) (s' : Sys) : Prop :=
  stepFn cfg s l = some s'

instance (cfg : Config) (s : Sys) (l : Label) (s' : Sys) :
    Decidable (Step cfg s l s') :=
  inferInstanceAs (Decidable (stepFn cfg s l = some s'))

/-- A finite execution: `Run cfg s tr s'` means the trace of labels `tr`
leads from state `s` to state `s'` by atomic steps. -/
inductive Run (cfg : Config) : Sys → List Label → Sys → Prop
  | nil (s : Sys) : Run cfg s [] s
  | cons {s s' s'' : Sys} {l : Label} {tr : List Label} :
      Step cfg s l s' → Run cfg s' tr s'' → Run cfg s (l :: tr) s''

/-! ## Basic lemmas about the state and traces -/

@[simp]
theorem Sys.srv_setSrv_same (s : Sys) (i : SrvId) (v : SrvState) :
    (s.setSrv i v).srv i = v := by
  cases i <;> simp [Sys.srv, Sys.setSrv]

theorem Sys.srv_setSrv_other (s : Sys) {i j : SrvId} (v : SrvState) (h : i ≠ j) :
    (s.setSrv j v).srv i = s.srv i := by
  cases i <;> cases j <;> simp_all [Sys.srv, Sys.setSrv]

@[simp]
theorem Sys.mainPc_setSrv (s : Sys) (i : SrvId) (v : SrvState) :
    (s.setSrv i v).mainPc = s.mainPc := by
  cases i <;> simp [Sys.setSrv]

@[simp]
theorem Sys.healthy_setSrv (s : Sys) (i : SrvId) (v : SrvState) :
    (s.setSrv i v).healthy = s.healthy := by
  cases i <;> simp [Sys.setSrv]

@[simp]
theorem Sys.wg_setSrv (s : Sys) (i : SrvId) (v : SrvState) :
    (s.setSrv i v).wg = s.wg := by
  cases i <;> simp [Sys.setSrv]

@[simp]
theorem Sys.fatal_setSrv (s : Sys) (i : SrvId) (v : SrvState) :
    (s.setSrv i v).fatal = s.fatal := by
  cases i <;> simp [Sys.setSrv]

@[simp]
theorem Sys.stopClosed_setSrv (s : Sys) (i : SrvId) (v : SrvState) :
    (s.setSrv i v).stopClosed = s.stopClosed := by
  cases i <;> simp [Sys.setSrv]

@[simp]
theorem Sys.srv_app (s : Sys) : s.srv .app = s.app := rfl

@[simp]
theorem Sys.srv_metrics (s : Sys) : s.srv .metrics = s.metrics := rfl

/-- Appending traces composes runs. -/
theorem Run.append {cfg : Config} {s s' s'' : Sys} {tr1 tr2 : List Label}
    (h1 : Run cfg s tr1 s') (h2 : Run cfg s' tr2 s'') :
    Run cfg s (tr1 ++ tr2) s'' := by
  induction h1 with
  | nil _ => exact h2
  | cons hst _ ih => exact Run.cons hst (ih h2)

/-- A run along a split trace passes through an intermediate state. -/
theorem Run.split {cfg : Config} {s s'' : Sys} {tr1 tr2 : List Label}
    (h : Run cfg s (tr1 ++ tr2) s'') :
    ∃ s', Run cfg s tr1 s' ∧ Run cfg s' tr2 s'' := by
  induction tr1 generalizing s with
  | nil => exact ⟨s, Run.nil s, h⟩
  | cons l tr ih =>
    cases h with
    | cons hst hrun =>
      obtain ⟨sm, hm1, hm2⟩ := ih hrun
      exact ⟨sm, Run.cons hst hm1, hm2⟩

/-- No step is possible once `log.Fatalf` has fired. -/
theorem no_step_of_fatal {cfg : Config} {s s' : Sys} {l : Label}
    (hf : s.fatal = true) (h : Step cfg s l s') : False := by
  cases l <;> simp only [Step, stepFn, hf] at h <;>
    (try (rename_i i; cases i)) <;> simp at h

/-- A run out of a dead (fatal) state is empty. -/
theorem run_of_fatal {cfg : Config} {s s' : Sys} {tr : List Label}
    (h : Run cfg s tr s') (hf : s.fatal = true) : tr = [] ∧ s' = s := by
  cases h with
  | nil _ => exact ⟨rfl, rfl⟩
  | cons hst _ => exact absurd hst (fun hst => no_step_of_fatal hf hst)

/-! ## Step inversion and program-counter threshold lemmas -/

/-- Inversion of a `srvSetUnready` step: it runs from `startServer` pc 4
and writes 0 into `healthy`. -/
theorem step_unready_inv {cfg : Config} {s s' : Sys} {i : SrvId}
    (h : Step cfg s (.srvSetUnready i) s') :
    (s.srv i).pc = 4 ∧ s'.healthy = 0 ∧ (s'.srv i).pc = 5 := by
  simp only [Step, stepFn] at h
  split at h
  · rename_i hc
    injection h with h
    subst h
    exact ⟨hc.2, rfl, by cases i <;> simp [Sys.srv, Sys.setSrv]⟩
  · simp at h

/-- Inversion of a `srvSleep` step: it runs from `startServer` pc 5 and
its duration is the hard-coded 5-second settle delay. -/
theorem step_sleep_inv {cfg : Config} {s s' : Sys} {i : SrvId} {d : Nat}
    (h : Step cfg s (.srvSleep i d) s') :
    (s.srv i).pc = 5 ∧ d = startServerSettleDelaySeconds ∧ (s'.srv i).pc = 6 := by
  simp only [Step, stepFn] at h
  split at h
  · rename_i hc
    injection h with h
    subst h
    exact ⟨hc.2.1, hc.2.2, by cases i <;> simp [Sys.srv, Sys.setSrv]⟩
  · simp at h

/-- Inversion of a `srvShutdown` step: it runs from `startServer` pc 6,
uses the configured stop timeout, advances the listener regardless of the
outcome `ok`, and never touches the `fatal` flag or the wait group. -/
theorem step_shutdown_inv {cfg : Config} {s s' : Sys} {i : SrvId} {ok : Bool} {t : Nat}
    (h : Step cfg s (.srvShutdown i ok t) s') :
    (s.srv i).pc = 6 ∧ t = cfg.stopTimeoutSeconds ∧ (s'.srv i).pc = 7 ∧
      s'.fatal = s.fatal ∧ s'.wg = s.wg ∧ (s'.srv i).shutdownCalled = true := by
  simp only [Step, stepFn] at h
  split at h
  · rename_i hc
    injection h with h
    subst h
    refine ⟨hc.2.1, hc.2.2, ?_, ?_, ?_, ?_⟩ <;> cases i <;> simp [Sys.srv, Sys.setSrv]
  · simp at h

/-- A step can only raise a listener's `startServer` program counter to 5
or beyond if it was already there or the step is that listener's
`healthy := 0` store. -/
theorem step_pc_ge_5 {cfg : Config} {s s' : Sys} {l : Label} (i : SrvId)
    (h : Step cfg s l s') (hge : 5 ≤ (s'.srv i).pc) :
    5 ≤ (s.srv i).pc ∨ l = .srvSetUnready i := by
  rcases l with _|_|_|j|_|_|_|_|_|j|j|j|j|⟨j,d⟩|⟨j,ok,t⟩|j|j|j|j <;>
    (try cases j) <;> cases i <;>
    simp only [Step, stepFn] at h <;>
    split at h <;>
    (try (injection h with h)) <;>
    (try subst h) <;>
    simp_all [Sys.srv, Sys.setSrv]

/-- A step can only raise a listener's `startServer` program counter to 6
or beyond if it was already there or the step is that listener's settle
sleep. -/
theorem step_pc_ge_6 {cfg : Config} {s s' : Sys} {l : Label} (i : SrvId)
    (h : Step cfg s l s') (hge : 6 ≤ (s'.srv i).pc) :
    6 ≤ (s.srv i).pc ∨ l = .srvSleep i startServerSettleDelaySeconds := by
  rcases l with _|_|_|j|_|_|_|_|_|j|j|j|j|⟨j,d⟩|⟨j,ok,t⟩|j|j|j|j <;>
    (try cases j) <;> cases i <;>
    simp only [Step, stepFn] at h <;>
    split at h <;>
    (try (injection h with h)) <;>
    (try subst h) <;>
    simp_all [Sys.srv, Sys.setSrv, startServerSettleDelaySeconds]

/-- Along any run, if a listener's `startServer` counter went from below 5
to at least 5, the trace contains that listener's `healthy := 0` store. -/
theorem run_unready_mem {cfg : Config} {s0 s : Sys} {tr : List Label} (i : SrvId)
    (h : Run cfg s0 tr s) (h0 : (s0.srv i).pc < 5) (h1 : 5 ≤ (s.srv i).pc) :
    Label.srvSetUnready i ∈ tr := by
  induction h with
  | nil _ => omega
  | cons hst hrun ih =>
    rename_i s1 s2 _ l tr'
    by_cases hmid : 5 ≤ (s2.srv i).pc
    · rcases step_pc_ge_5 i hst hmid with hpre | hl
      · omega
      · subst hl
        exact List.mem_cons_self _ _
    · exact List.mem_cons_of_mem _ (ih (by omega) h1)

/-- Along any run, if a listener's `startServer` counter went from below 6
to at least 6, the trace contains that listener's settle sleep. -/
theorem run_sleep_mem {cfg : Config} {s0 s : Sys} {tr : List Label} (i : SrvId)
    (h : Run cfg s0 tr s) (h0 : (s0.srv i).pc < 6) (h1 : 6 ≤ (s.srv i).pc) :
    Label.srvSleep i startServerSettleDelaySeconds ∈ tr := by
  induction h with
  | nil _ => omega
  | cons hst hrun ih =>
    rename_i s1 s2 _ l tr'
    by_cases hmid : 6 ≤ (s2.srv i).pc
    · rcases step_pc_ge_6 i hst hmid with hpre | hl
      · omega
      · subst hl
        exact List.mem_cons_self _ _
    · exact List.mem_cons_of_mem _ (ih (by omega) h1)

/-! ## The global reachability invariant -/

/-- Invariant tying the `sync.WaitGroup` counter to the two listeners'
progress, and sequencing facts about `main`: the counter is 2 minus the
number of listeners whose `startServer` has returned, listeners only run
once spawned, and `wg.Wait()` only returns at counter 0. -/
def SysInv (s : Sys) : Prop :=
  s.mainPc ≤ 7 ∧ s.app.pc ≤ 8 ∧ s.metrics.pc ≤ 8 ∧
  (s.mainPc ≤ 1 → s.wg = 0) ∧
  (2 ≤ s.mainPc →
    ((s.app.pc = 8 ∧ s.metrics.pc = 8 ∧ s.wg = 0) ∨
     (s.app.pc = 8 ∧ s.metrics.pc < 8 ∧ s.wg = 1) ∨
     (s.app.pc < 8 ∧ s.metrics.pc = 8 ∧ s.wg = 1) ∨
     (s.app.pc < 8 ∧ s.metrics.pc < 8 ∧ s.wg = 2))) ∧
  (1 ≤ s.app.pc → 3 ≤ s.mainPc) ∧
  (1 ≤ s.metrics.pc → 4 ≤ s.mainPc) ∧
  (7 ≤ s.mainPc → s.wg = 0)

/-- The invariant holds initially. -/
theorem inv_init : SysInv initSys := by
  simp [SysInv, initSys, initSrv]

set_option maxHeartbeats 1600000 in
/-- The invariant is preserved by every atomic step. -/
theorem inv_step {cfg : Config} {s s' : Sys} {l : Label}
    (hInv : SysInv s) (h : Step cfg s l s') : SysInv s' := by
  rcases l with _|_|_|j|_|_|_|_|_|j|j|j|j|⟨j,d⟩|⟨j,ok,t⟩|j|j|j|j <;>
    (try cases j) <;>
    simp only [Step, stepFn] at h <;>
    split at h <;>
    (try (exact Option.noConfusion h)) <;>
    (try (injection h with h)) <;>
    (try subst h) <;>
    simp only [SysInv, Sys.srv, Sys.setSrv, true_and, and_true, true_or, or_true,
      false_and, and_false, false_or, or_false, true_implies, implies_true, le_refl,
      lt_self_iff_false] at * <;>
    omega

/-- The invariant holds in every state reachable from `initSys`. -/
theorem inv_reach {cfg : Config} {s : Sys} {tr : List Label}
    (h : Run cfg initSys tr s) : SysInv s := by
  have aux : ∀ s0, SysInv s0 → ∀ {tr2 s1}, Run cfg s0 tr2 s1 → SysInv s1 := by
    intro s0 h0 tr2 s1 hrun
    induction hrun with
    | nil _ => exact h0
    | cons hst hr ih => exact ih (inv_step h0 hst)
  exact aux initSys inv_init h

/-! ## Executable runs and concrete executions -/

/-- Execute a trace of labels from a state, failing if any step is not
enabled. -/
def runFn (cfg : Config) (s : Sys) : List Label → Option Sys
  | [] => some s
  | l :: tr =>
    match stepFn cfg s l with
    | some s' => runFn cfg s' tr
    | none => none

/-- A successful `runFn` execution is a `Run`. -/
theorem runFn_sound {cfg : Config} {tr : List Label} :
    ∀ {s s' : Sys}, runFn cfg s tr = some s' → Run cfg s tr s' := by
  induction tr with
  | nil =>
    intro s s' h
    simp only [runFn] at h
    injection h with h
    subst h
    exact Run.nil s
  | cons l tr ih =>
    intro s s' h
    simp only [runFn] at h
    cases hst : stepFn cfg s l with
    | none => rw [hst] at h; exact Option.noConfusion h
    | some s1 => rw [hst] at h; exact Run.cons hst (ih h)

/-- A run of the program with `SUCCESS_RATE=100` and default flags. -/
def cfg0 : Config := { successRateEnv := some 100 }

/-- A configuration whose `SUCCESS_RATE` environment variable is missing
or unparseable. -/
def cfgNone : Config := { successRateEnv := none }

/-- A complete execution: startup, both listeners serving, SIGTERM, both
listeners draining and shutting down (the application listener's graceful
shutdown times out, `ok = false`; the metrics listener's succeeds), both
`startServer` goroutines returning, `main` passing `wg.Wait()`. -/
def fullTrace : List Label :=
  [.mainParseOk, .mainWgAdd, .mainSpawn .app, .mainSpawn .metrics, .mainNotify,
   .mainSetHealthy, .srvSpawnAccept .app, .srvSpawnAccept .metrics,
   .acceptServe .app, .acceptServe .metrics, .sigArrive, .watcherClose,
   .srvObserveStop .app, .srvKeepAlivesOff .app, .srvSetUnready .app,
   .srvSleep .app 5, .srvShutdown .app false 10, .acceptClosed .app,
   .srvWgDone .app, .srvObserveStop .metrics, .srvKeepAlivesOff .metrics,
   .srvSetUnready .metrics, .srvSleep .metrics 5, .srvShutdown .metrics true 10,
   .acceptClosed .metrics, .srvWgDone .metrics, .mainWgWait]

/-- The final state of `fullTrace`. -/
def finalSys : Sys :=
  { mainPc := 7, healthy := 0, stopClosed := true, sigArrived := true,
    watcherSpawned := true, watcherDone := true, wg := 0,
    app := { pc := 8, accept := 2, keepAlives := false, shutdownCalled := true },
    metrics := { pc := 8, accept := 2, keepAlives := false, shutdownCalled := true },
    fatal := false }

/-- `fullTrace` really is an execution of the program. -/
theorem fullTrace_run : Run cfg0 initSys fullTrace finalSys :=
  runFn_sound (by decide)

/-- The execution prefix in which `main` has spawned both listener
goroutines, registered the signal watcher and stored `healthy = 1`, but
neither listener goroutine has run at all yet (no socket is bound, no
`ListenAndServe` invoked). -/
def notServingTrace : List Label :=
  [.mainParseOk, .mainWgAdd, .mainSpawn .app, .mainSpawn .metrics, .mainNotify,
   .mainSetHealthy]

/-- The state reached by `notServingTrace`. -/
def notServingSys : Sys :=
  { mainPc := 6, healthy := 1, stopClosed := false, sigArrived := false,
    watcherSpawned := true, watcherDone := false, wg := 2,
    app := { pc := 1, accept := 0, keepAlives := true, shutdownCalled := false },
    metrics := { pc := 1, accept := 0, keepAlives := true, shutdownCalled := false },
    fatal := false }

/-- An execution in which the metrics listener observes the stop signal
and disables keep-alive while `healthy` is still 1 (the application
listener has not yet reacted at all). -/
def metricsDrainTrace : List Label :=
  [.mainParseOk, .mainWgAdd, .mainSpawn .app, .mainSpawn .metrics, .mainNotify,
   .mainSetHealthy, .srvSpawnAccept .metrics, .acceptServe .metrics, .sigArrive,
   .watcherClose, .srvObserveStop .metrics, .srvKeepAlivesOff .metrics]

/-- The state reached by `metricsDrainTrace`: the metrics listener is at
its `atomic.StoreInt32(&healthy, 0)` statement, `healthy` still 1. -/
def metricsDrainSys : Sys :=
  { mainPc := 6, healthy := 1, stopClosed := true, sigArrived := true,
    watcherSpawned := true, watcherDone := true, wg := 2,
    app := { pc := 1, accept := 0, keepAlives := true, shutdownCalled := false },
    metrics := { pc := 4, accept := 1, keepAlives := false, shutdownCalled := false },
    fatal := false }

/-- The state after the metrics listener's `healthy := 0` store. -/
def metricsDrainSys' : Sys :=
  { metricsDrainSys with
    healthy := 0
    metrics := { pc := 5, accept := 1, keepAlives := false, shutdownCalled := false } }

/-- The process state after a failed `SUCCESS_RATE` parse: `log.Fatalf`
fired before anything else ran. -/
def deadSys : Sys := { initSys with fatal := true }

/-- A state in which the application listener is about to run its settle
sleep (used to exercise single steps). -/
def sleepPre : Sys :=
  { mainPc := 6, healthy := 0, stopClosed := true, sigArrived := true,
    watcherSpawned := true, watcherDone := true, wg := 2,
    app := { pc := 5, accept := 1, keepAlives := false, shutdownCalled := false },
    metrics := { pc := 2, accept := 1, keepAlives := true, shutdownCalled := false },
    fatal := false }

/-- `sleepPre` after the application listener's settle sleep. -/
def sleepPost : Sys :=
  { sleepPre with
    app := { pc := 6, accept := 1, keepAlives := false, shutdownCalled := false } }

/-- `sleepPost` after the application listener's `srv.Shutdown(ctx)`
returns a timeout error. -/
def shutPost : Sys :=
  { sleepPre with
    app := { pc := 7, accept := 1, keepAlives := false, shutdownCalled := true } }

/-- A state in which the application listener is about to run
`SetKeepAlivesEnabled(false)`. -/
def kaPre : Sys :=
  { sleepPre with
    app := { pc := 3, accept := 1, keepAlives := true, shutdownCalled := false } }

/-- `kaPre` after disabling keep-alives. -/
def kaPost : Sys :=
  { sleepPre with
    app := { pc := 4, accept := 1, keepAlives := false, shutdownCalled := false } }

/-- `kaPost` after the application listener's `healthy := 0` store
(starting from `healthy = 0` it stays 0). -/
def unreadyPost : Sys :=
  { sleepPre with
    app := { pc := 5, accept := 1, keepAlives := false, shutdownCalled := false } }

/-- A state right before `main`'s `atomic.StoreInt32(&healthy, 1)`. -/
def setHealthyPre : Sys :=
  { notServingSys with mainPc := 5, healthy := 0 }

/-- A state in which the metrics listener's `ListenAndServe` goroutine is
about to fail its bind (the listener was spawned, nothing is bound). -/
def crashPre : Sys :=
  { notServingSys with
    metrics := { pc := 2, accept := 0, keepAlives := true, shutdownCalled := false } }

/-- `crashPre` after `ListenAndServe` returns a non-`ErrServerClosed`
error and `log.Fatalf("boom: ...")` fires. -/
def crashPost : Sys :=
  { notServingSys with
    metrics := { pc := 2, accept := 3, keepAlives := true, shutdownCalled := false }
    fatal := true }

/-! ## Claim theorems -/

/-- C1: For every listener, upon observing the stop signal the three
stages happen in strict order: in every execution trace, any
`srv.Shutdown` call of a listener is strictly preceded by that listener's
settle sleep and by its `healthy := 0` store, and any settle sleep is
strictly preceded by the `healthy := 0` store; moreover at the instant of
the `healthy := 0` store the readiness endpoint answers 502, so readiness
reports 502 strictly before the settle delay elapses and before the
listening socket stops accepting (which happens only at `srv.Shutdown`). -/
theorem drain_unready_then_sleep_then_shutdown :
    ∀ (cfg : Config) (tr : List Label) (s : Sys), Run cfg initSys tr s →
    (∀ (i : SrvId) (ok : Bool) (t : Nat) (tr1 tr2 : List Label),
      tr = tr1 ++ Label.srvShutdown i ok t :: tr2 →
      Label.srvSetUnready i ∈ tr1 ∧
      Label.srvSleep i startServerSettleDelaySeconds ∈ tr1) ∧
    (∀ (i : SrvId) (d : Nat) (tr1 tr2 : List Label),
      tr = tr1 ++ Label.srvSleep i d :: tr2 →
      Label.srvSetUnready i ∈ tr1) ∧
    (∀ (i : SrvId) (s1 s2 : Sys), Step cfg s1 (Label.srvSetUnready i) s2 →
      readinessHandler s2.healthy = { status := 502, body := "Unhealthy" }) := by
  intro cfg tr s hrun
  refine ⟨?_, ?_, ?_⟩
  · intro i ok t tr1 tr2 htr
    subst htr
    obtain ⟨s1, h1, h2⟩ := Run.split hrun
    cases h2 with
    | cons hst _ =>
      have hpc := (step_shutdown_inv hst).1
      have hinit : (initSys.srv i).pc = 0 := by cases i <;> rfl
      exact ⟨run_unready_mem i h1 (by omega) (by omega),
             run_sleep_mem i h1 (by omega) (by omega)⟩
  · intro i d tr1 tr2 htr
    subst htr
    obtain ⟨s1, h1, h2⟩ := Run.split hrun
    cases h2 with
    | cons hst _ =>
      have hpc := (step_sleep_inv hst).1
      have hinit : (initSys.srv i).pc = 0 := by cases i <;> rfl
      exact run_unready_mem i h1 (by omega) (by omega)
  · intro i s1 s2 hst
    rw [(step_unready_inv hst).2.1]
    simp [readinessHandler]

/-- Witness for C1 at a concrete execution: in `fullTrace`, the
application listener's shutdown (position 16) is preceded by its
`healthy := 0` store and settle sleep. -/
theorem drain_unready_then_sleep_then_shutdown_witness :
    Label.srvSetUnready .app ∈ fullTrace.take 16 ∧
    Label.srvSleep .app startServerSettleDelaySeconds ∈ fullTrace.take 16 :=
  (drain_unready_then_sleep_then_shutdown cfg0 fullTrace finalSys fullTrace_run).1
    .app false 10 (fullTrace.take 16) (fullTrace.drop 17) (by decide)

/-- C2: the process does not exit before both listeners are stopped: in
every execution, once `main` is past `wg.Wait()` (about to return, i.e.
exit), both `startServer` goroutines have completed their entire shutdown
sequence and returned. -/
theorem main_exits_only_after_both_stopped :
    ∀ (cfg : Config) (tr : List Label) (s : Sys), Run cfg initSys tr s →
    7 ≤ s.mainPc → s.app.pc = 8 ∧ s.metrics.pc = 8 := by
  intro cfg tr s h hge
  have hinv := inv_reach h
  unfold SysInv at hinv
  omega

/-- Witness for C2 at the concrete complete execution `fullTrace`. -/
theorem main_exits_only_after_both_stopped_witness :
    finalSys.app.pc = 8 ∧ finalSys.metrics.pc = 8 :=
  main_exits_only_after_both_stopped cfg0 fullTrace finalSys fullTrace_run (by decide)

/-- C3 counterexample: with `SUCCESS_RATE=0`, the draw 0 (a possible
value of `rand.Intn(101)`) does NOT produce a failure: `0 > 0` is false,
so the handler answers 200 "Hello World!\n". The claim "`p=0` ⇒ every
response is failure" is therefore false. -/
theorem success_rate_zero_not_always_fail :
    Handler 0 0 = { status := 200, body := "Hello World!\n" } ∧
    0 < randIntnBound := by
  exact ⟨rfl, by decide⟩

/-- C3 amended: with success rate 100 every response is a success; with
success rate 0 every response with a nonzero draw is a failure, but the
draw 0 (probability 1/101) still yields a success. -/
theorem success_rate_extremes :
    (∀ d : Nat, d < randIntnBound →
      Handler 100 d = { status := 200, body := "Hello World!\n" }) ∧
    Handler 0 0 = { status := 200, body := "Hello World!\n" } ∧
    (∀ d : Nat, 1 ≤ d → d < randIntnBound →
      Handler 0 d = { status := 500, body := "Fail\n" }) := by
  refine ⟨?_, rfl, ?_⟩
  · intro d hd
    simp only [randIntnBound] at hd
    simp only [Handler]
    rw [if_neg (by omega)]
  · intro d hd1 hd
    simp only [randIntnBound] at hd
    simp only [Handler]
    rw [if_pos (by omega)]

/-- Witness for C3 (amended) at the concrete draws 100 and 37. -/
theorem success_rate_extremes_witness :
    Handler 100 100 = { status := 200, body := "Hello World!\n" } ∧
    Handler 0 37 = { status := 500, body := "Fail\n" } :=
  ⟨success_rate_extremes.1 100 (by decide),
   success_rate_extremes.2.2 37 (by decide) (by decide)⟩

/-- C8: the application handler draws `rand.Intn(101)`, i.e. a uniform
integer in [0,100]; a draw exceeding the success rate yields 500 with
body "Fail\n", any other draw yields 200 with body "Hello World!\n", and
every invocation sleeps the fixed 5-millisecond artificial delay. -/
theorem handler_response_spec :
    randIntnBound = 101 ∧ handlerDelayMillis = 5 ∧
    (∀ (successRate : Int) (d : Nat), d < randIntnBound →
      (d : Int) > successRate →
      Handler successRate d = { status := 500, body := "Fail\n" }) ∧
    (∀ (successRate : Int) (d : Nat), d < randIntnBound →
      (d : Int) ≤ successRate →
      Handler successRate d = { status := 200, body := "Hello World!\n" }) := by
  refine ⟨rfl, rfl, ?_, ?_⟩
  · intro r d _ hgt
    simp only [Handler]
    rw [if_pos hgt]
  · intro r d _ hle
    simp only [Handler]
    rw [if_neg (by omega)]

/-- Witness for C8 at success rate 50 and the concrete draws 60 and 40. -/
theorem handler_response_spec_witness :
    Handler 50 60 = { status := 500, body := "Fail\n" } ∧
    Handler 50 40 = { status := 200, body := "Hello World!\n" } :=
  ⟨handler_response_spec.2.2.1 50 60 (by decide) (by decide),
   handler_response_spec.2.2.2 50 40 (by decide) (by decide)⟩

/-- C9: for every integer success rate (no range precondition exists in
the code), the handler succeeds exactly when the draw is at most the
success rate; hence for rates ≥ 100 every response succeeds, for
negative rates every response fails, and for rates in [0,100] exactly
`successRate + 1` of the 101 equiprobable draws succeed (per-request
success probability `(successRate+1)/101`). -/
theorem handler_success_iff_draw_le :
    ∀ successRate : Int,
      (∀ d : Nat, d < randIntnBound →
        ((Handler successRate d).status = 200 ↔ (d : Int) ≤ successRate)) ∧
      (100 ≤ successRate → ∀ d : Nat, d < randIntnBound →
        (Handler successRate d).status = 200) ∧
      (successRate < 0 → ∀ d : Nat, d < randIntnBound →
        (Handler successRate d).status = 500) ∧
      (0 ≤ successRate → successRate ≤ 100 →
        ((Finset.range randIntnBound).filter
          (fun d : Nat => (d : Int) ≤ successRate)).card = successRate.toNat + 1) := by
  intro r
  refine ⟨?_, ?_, ?_, ?_⟩
  · intro d hd
    simp only [Handler]
    split_ifs with hgt
    · constructor
      · intro h
        exact absurd h (by decide)
      · intro h
        exact absurd hgt (by omega)
    · constructor
      · intro _
        omega
      · intro _
        rfl
  · intro h100 d hd
    simp only [randIntnBound] at hd
    simp only [Handler]
    rw [if_neg (by omega)]
  · intro hneg d hd
    simp only [Handler]
    rw [if_pos (by omega)]
  · intro h0 h1
    have hset : (Finset.range randIntnBound).filter (fun d : Nat => (d : Int) ≤ r)
        = Finset.range (r.toNat + 1) := by
      ext d
      simp only [Finset.mem_filter, Finset.mem_range, randIntnBound]
      omega
    rw [hset, Finset.card_range]

/-- Witness for C9 at rate 42 (draw 7 succeeds, 43 of 101 draws succeed),
rate 200 (every draw succeeds) and rate -3 (every draw fails). -/
theorem handler_success_iff_draw_le_witness :
    ((Handler 42 7).status = 200 ↔ (7 : Int) ≤ 42) ∧
    (Handler 200 100).status = 200 ∧
    (Handler (-3) 0).status = 500 ∧
    ((Finset.range randIntnBound).filter
      (fun d : Nat => (d : Int) ≤ (42 : Int))).card = (42 : Int).toNat + 1 :=
  ⟨(handler_success_iff_draw_le 42).1 7 (by decide),
   (handler_success_iff_draw_le 200).2.1 (by decide) 100 (by decide),
   (handler_success_iff_draw_le (-3)).2.2.1 (by decide) 0 (by decide),
   (handler_success_iff_draw_le 42).2.2.2 (by decide) (by decide)⟩

/-- C4 counterexample: a reachable state in which `healthy = 1` (so the
readiness endpoint answers 200 "OK") while NEITHER listener has even
invoked `ListenAndServe` (both `startServer` goroutines are still at
their entry, no socket bound): `main` stores `healthy = 1` right after
spawning the goroutines, without any confirmation that the listeners are
launched, refuting "flips true only once both listeners are confirmed
launched" and "readiness returns 502 before both listeners have
completed startup". -/
theorem ready_reported_before_listeners_serve :
    Run cfg0 initSys notServingTrace notServingSys ∧
    notServingSys.healthy = 1 ∧
    notServingSys.app.accept = 0 ∧ notServingSys.metrics.accept = 0 ∧
    notServingSys.app.pc = 1 ∧ notServingSys.metrics.pc = 1 ∧
    readinessHandler notServingSys.healthy = { status := 200, body := "OK" } :=
  ⟨runFn_sound (by decide), rfl, rfl, rfl, rfl, rfl, by decide⟩

/-- C4 amended: the Health State is initialized false (readiness answers
502 at process start) and is stored true by `main` unconditionally right
after it has spawned both listener goroutines and the signal watcher
(`mainPc = 5`), with no confirmation that either listener is serving (the
store leaves both listeners' states untouched and has no guard on them);
readiness answers 502 exactly while `healthy ≠ 1`. -/
theorem healthy_set_unconditionally_after_spawn :
    initSys.healthy = 0 ∧
    readinessHandler initSys.healthy = { status := 502, body := "Unhealthy" } ∧
    (∀ (cfg : Config) (s s' : Sys), Step cfg s .mainSetHealthy s' →
      s.mainPc = 5 ∧ s'.healthy = 1 ∧ s'.app = s.app ∧ s'.metrics = s.metrics) ∧
    (∀ h : Int, h ≠ 1 →
      readinessHandler h = { status := 502, body := "Unhealthy" }) := by
  refine ⟨rfl, by decide, ?_, ?_⟩
  · intro cfg s s' h
    simp only [Step, stepFn] at h
    split at h
    · rename_i hc
      injection h with h
      subst h
      exact ⟨hc.2, rfl, rfl, rfl⟩
    · exact absurd h (by simp)
  · intro h hne
    simp [readinessHandler, hne]

/-- Witness for C4 (amended) at the concrete `healthy := 1` store of
`main`. -/
theorem healthy_set_unconditionally_after_spawn_witness :
    setHealthyPre.mainPc = 5 ∧ notServingSys.healthy = 1 ∧
    notServingSys.app = setHealthyPre.app ∧
    notServingSys.metrics = setHealthyPre.metrics :=
  healthy_set_unconditionally_after_spawn.2.2.1 cfg0 setHealthyPre notServingSys
    (by decide)

/-- C5 counterexample: a reachable state with `healthy = 1` in which the
METRICS listener performs its drain-entry `healthy := 0` store and
changes the Health State from 1 to 0 — the metrics listener's drain
transition does not leave the Health State unchanged, because both
listeners run the same `startServer` body. -/
theorem metrics_drain_clears_health_state :
    Run cfg0 initSys metricsDrainTrace metricsDrainSys ∧
    metricsDrainSys.healthy = 1 ∧
    Step cfg0 metricsDrainSys (Label.srvSetUnready .metrics) metricsDrainSys' ∧
    metricsDrainSys'.healthy = 0 ∧
    metricsDrainSys'.healthy ≠ metricsDrainSys.healthy :=
  ⟨runFn_sound (by decide), rfl, by decide, rfl, by decide⟩

/-- C5 amended: on the Serving-to-Draining transition every listener
disables keep-alive on its server (leaving the Health State untouched at
that instant), and BOTH listeners — the metrics listener as well as the
application listener, since they share `startServer` — then clear the
Health State to unready. -/
theorem drain_entry_keepalive_and_health :
    ∀ (cfg : Config) (i : SrvId) (s s' : Sys),
      (Step cfg s (Label.srvKeepAlivesOff i) s' →
        (s'.srv i).keepAlives = false ∧ s'.healthy = s.healthy) ∧
      (Step cfg s (Label.srvSetUnready i) s' → s'.healthy = 0) := by
  intro cfg i s s'
  constructor
  · intro h
    simp only [Step, stepFn] at h
    split at h
    · injection h with h
      subst h
      exact ⟨by simp, by simp⟩
    · exact absurd h (by simp)
  · intro h
    exact (step_unready_inv h).2.1

/-- Witness for C5 (amended) at concrete drain-entry steps of the
application listener. -/
theorem drain_entry_keepalive_and_health_witness :
    ((kaPost.srv .app).keepAlives = false ∧ kaPost.healthy = kaPre.healthy) ∧
    unreadyPost.healthy = 0 :=
  ⟨(drain_entry_keepalive_and_health cfg0 .app kaPre kaPost).1 (by decide),
   (drain_entry_keepalive_and_health cfg0 .app kaPost unreadyPost).2 (by decide)⟩

/-- With an unparseable `SUCCESS_RATE`, the only step possible from the
initial state is `main`'s `log.Fatalf` at the parse. -/
theorem step_from_init_none {cfg : Config} {l : Label} {s' : Sys}
    (henv : cfg.successRateEnv = none) (h : Step cfg initSys l s') :
    l = Label.mainParseFail ∧ s' = deadSys := by
  rcases l with _|_|_|j|_|_|_|_|_|j|j|j|j|⟨j,d⟩|⟨j,ok,t⟩|j|j|j|j <;>
    (try cases j) <;>
    simp_all [Step, stepFn, henv, initSys, initSrv, deadSys, Sys.srv]

/-- C6: if a listener's graceful shutdown exceeds the stop timeout
(`srv.Shutdown` returns an error, `ok = false`), the step neither sets
the fatal flag nor blocks the listener: the listener advances to its
`wg.Done()` and return regardless of the outcome; and there is a
complete execution in which the application listener's shutdown times
out, yet both listeners stop and the process exits with status 0. -/
theorem shutdown_timeout_logged_only :
    (∀ (cfg : Config) (i : SrvId) (ok : Bool) (t : Nat) (s s' : Sys),
      Step cfg s (Label.srvShutdown i ok t) s' →
        s'.fatal = s.fatal ∧ (s'.srv i).pc = 7 ∧ s'.wg = s.wg) ∧
    (Run cfg0 initSys fullTrace finalSys ∧
     Label.srvShutdown .app false cfg0.stopTimeoutSeconds ∈ fullTrace ∧
     finalSys.app.pc = 8 ∧ finalSys.metrics.pc = 8 ∧ 7 ≤ finalSys.mainPc ∧
     finalSys.fatal = false ∧ exitCode finalSys = 0) := by
  constructor
  · intro cfg i ok t s s' h
    have h2 := step_shutdown_inv h
    exact ⟨h2.2.2.2.1, h2.2.2.1, h2.2.2.2.2.1⟩
  · exact ⟨fullTrace_run, by decide, by decide, by decide, by decide, by decide,
      by decide⟩

/-- Witness for C6 at the concrete timed-out shutdown step of the
application listener. -/
theorem shutdown_timeout_logged_only_witness :
    shutPost.fatal = sleepPost.fatal ∧ (shutPost.srv .app).pc = 7 ∧
    shutPost.wg = sleepPost.wg :=
  shutdown_timeout_logged_only.1 cfg0 .app false 10 sleepPost shutPost (by decide)

/-- C7: a missing/unparseable `SUCCESS_RATE` kills the process at
startup: in any execution under such a configuration neither listener
goroutine is ever spawned (`pc = 0`) and any nonempty execution has
already hit `log.Fatalf` (exit status 1); a `ListenAndServe` error other
than `http.ErrServerClosed` (bind failure or unexpected termination)
likewise sets the fatal flag and exit status 1, while the intentional
`ErrServerClosed` return never does. -/
theorem fatal_startup_and_listener_errors :
    (∀ (cfg : Config) (tr : List Label) (s : Sys),
      cfg.successRateEnv = none → Run cfg initSys tr s →
        s.app.pc = 0 ∧ s.metrics.pc = 0 ∧
        (tr ≠ [] → s.fatal = true ∧ exitCode s = 1)) ∧
    (∀ (cfg : Config) (i : SrvId) (s s' : Sys),
      Step cfg s (Label.acceptCrash i) s' → s'.fatal = true ∧ exitCode s' = 1) ∧
    (∀ (cfg : Config) (i : SrvId) (s s' : Sys),
      Step cfg s (Label.acceptClosed i) s' → s'.fatal = s.fatal) := by
  refine ⟨?_, ?_, ?_⟩
  · intro cfg tr s henv hrun
    cases hrun with
    | nil => exact ⟨rfl, rfl, fun hne => absurd rfl hne⟩
    | cons hst hrun2 =>
      obtain ⟨hl, hs1⟩ := step_from_init_none henv hst
      subst hs1
      obtain ⟨htr, hs⟩ := run_of_fatal hrun2 rfl
      subst hs
      exact ⟨rfl, rfl, fun _ => ⟨rfl, rfl⟩⟩
  · intro cfg i s s' h
    simp only [Step, stepFn] at h
    split at h
    · injection h with h
      subst h
      exact ⟨by simp, by simp [exitCode]⟩
    · exact absurd h (by simp)
  · intro cfg i s s' h
    simp only [Step, stepFn] at h
    split at h
    · injection h with h
      subst h
      simp
    · exact absurd h (by simp)

/-- Witness for C7: the concrete one-step fatal run under a missing
`SUCCESS_RATE`, and a concrete fatal bind failure of the metrics
listener. -/
theorem fatal_startup_and_listener_errors_witness :
    (deadSys.app.pc = 0 ∧ deadSys.metrics.pc = 0 ∧
      ([Label.mainParseFail] ≠ [] → deadSys.fatal = true ∧ exitCode deadSys = 1)) ∧
    (crashPost.fatal = true ∧ exitCode crashPost = 1) :=
  ⟨fatal_startup_and_listener_errors.1 cfgNone [Label.mainParseFail] deadSys rfl
      (runFn_sound (by decide)),
   fatal_startup_and_listener_errors.2.1 cfg0 .metrics crashPre crashPost (by decide)⟩

/-- C10: the settle delay between observing the stop signal and
attempting graceful shutdown is the hard-coded 5 seconds for BOTH
listeners (any sleep step of either listener, under every configuration,
has exactly this duration), it is not among the registered command-line
flags, while the shutdown step's bound is the configurable
`stop-timeout` flag value; `fullTrace` exhibits both listeners sleeping
the same 5 seconds. -/
theorem settle_delay_hardcoded_for_both :
    (∀ (cfg : Config) (i : SrvId) (d : Nat) (s s' : Sys),
      Step cfg s (Label.srvSleep i d) s' → d = startServerSettleDelaySeconds) ∧
    startServerSettleDelaySeconds = 5 ∧
    (∀ (cfg : Config) (i : SrvId) (ok : Bool) (t : Nat) (s s' : Sys),
      Step cfg s (Label.srvShutdown i ok t) s' → t = cfg.stopTimeoutSeconds) ∧
    flagNames = ["metrics-port", "server-port", "stop-timeout"] ∧
    "stop-timeout" ∈ flagNames ∧ "settle-delay" ∉ flagNames ∧
    Label.srvSleep .app startServerSettleDelaySeconds ∈ fullTrace ∧
    Label.srvSleep .metrics startServerSettleDelaySeconds ∈ fullTrace :=
  ⟨fun _cfg _i _d _s _s' h => (step_sleep_inv h).2.1, rfl,
   fun _cfg _i _ok _t _s _s' h => (step_shutdown_inv h).2.1, rfl,
   by decide, by decide, by decide, by decide⟩

/-- Witness for C10 at concrete sleep and shutdown steps of the
application listener. -/
theorem settle_delay_hardcoded_for_both_witness :
    (5 : Nat) = startServerSettleDelaySeconds ∧
    (10 : Nat) = cfg0.stopTimeoutSeconds :=
  ⟨settle_delay_hardcoded_for_both.1 cfg0 .app 5 sleepPre sleepPost (by decide),
   settle_delay_hardcoded_for_both.2.2.1 cfg0 .app false 10 sleepPost shutPost
     (by decide)⟩
